import Mathlib

/-!
Shallow embedding of the iloveimg-nodejs client library core
(src/Error.js, src/Auth.js, src/TaskI.js, src/Task.js,
src/util/task.util.js and the zod schemas in src/schema), together with
theorems settling the frozen claims about it.

Conventions of the embedding:
* JavaScript dynamic values that the code inspects are modelled by `JsVal`
  (strings, numbers, booleans, null, undefined); JS numbers are modelled
  as `Int` (no claim involves fractional values or NaN).
* A thrown JS error is modelled as a returned `JsError` value; functions
  that always throw return `JsError`, fallible operations return
  `Except JsError α`.
* Asynchronous network calls are modelled by passing the outcome of the
  HTTP exchange (the mocked transport, as in the projects own test suite)
  as an explicit argument.
* Mutable private class fields become explicit state records threaded
  through each method.
-/

namespace ILoveIMG

/-- A JavaScript value, restricted to the shapes the embedded code inspects. -/
inductive JsVal where
  | vStr (s : String)
  | vNum (n : Int)
  | vBool (b : Bool)
  | vNull
  | vUndefined
  deriving DecidableEq, Repr

/-- JS truthiness of a `JsVal` (empty string, 0, false, null, undefined are falsy). -/
def JsVal.truthy : JsVal → Bool
  | .vStr s => s ≠ ""
  | .vNum n => n ≠ 0
  | .vBool b => b
  | .vNull => false
  | .vUndefined => false

/-- Whether a `JsVal` is a string (JS `typeof v === "string"`). -/
def JsVal.isStr : JsVal → Bool
  | .vStr _ => true
  | _ => false

/-- The underlying string of a string `JsVal` (only used after an `isStr` check). -/
def JsVal.asStr : JsVal → String
  | .vStr s => s
  | _ => ""

/-- Rendering of a `JsVal` inside a JS template literal. -/
def JsVal.display : JsVal → String
  | .vStr s => s
  | .vNum n => toString n
  | .vBool b => if b then "true" else "false"
  | .vNull => "null"
  | .vUndefined => "undefined"

/-- Characters removed by JS `String.prototype.trim`. -/
def isJsWhitespace (c : Char) : Bool :=
  c = ' ' || c = '\t' || c = '\n' || c = '\r' || c = '\x0b' || c = '\x0c'

/-- Truthiness of `s.trim()` in JS: true iff `s` has a non-whitespace character. -/
def jsTrimTruthy (s : String) : Bool :=
  s.toList.any (fun c => !(isJsWhitespace c))

/- ### Error model (src/Error.js) -/

/-- The nested `error` object inside an API error response body
(`response.data.error`); absent fields are `vUndefined`. -/
structure ErrorField where
  message : JsVal := .vUndefined
  code : JsVal := .vUndefined
  deriving DecidableEq, Repr

/-- The body (`response.data`) of an API error response; absent fields are
`vUndefined`, an absent or non-object nested `error` is `none`. -/
structure ResponseData where
  message : JsVal := .vUndefined
  code : JsVal := .vUndefined
  error : Option ErrorField := none
  deriving DecidableEq, Repr

/-- An axios `error.response`; `data := none` models a falsy body
(the source replaces it with an empty object via a disjunction with
an object literal). -/
structure AxiosResponse where
  status : Int
  data : Option ResponseData := none
  deriving DecidableEq, Repr

/-- The shape of an axios transport error: `response := none` models an
absent or falsy response, `request` is the truthiness of `error.request`. -/
structure AxiosErr where
  response : Option AxiosResponse := none
  request : Bool := false
  deriving DecidableEq, Repr

/-- The universe of JS errors thrown by the embedded code.
`plain` is an ordinary `new Error(message)`; `zod` is a validation error
raised by the zod schema layer; `axios` is a raw transport error;
`iLoveApi` and `network` are the classified errors produced by
`classifyError`.  In the source, `ILoveApiError` and `NetworkError`
extend `AxiosError` and would be re-classified message-stably if fed back
through `classifyError`; the model treats them as fixed points of
classification, which is observationally equivalent for every claim. -/
inductive JsError where
  | plain (message : String)
  | zod (message : String)
  | axios (e : AxiosErr)
  | iLoveApi (message : String) (status : Int)
  | network (message : String)
  deriving DecidableEq, Repr

/-- Decidable equality for the outcomes of fallible operations, used to
evaluate concrete runs. -/
instance {ε α : Type} [DecidableEq ε] [DecidableEq α] :
    DecidableEq (Except ε α) := fun a b =>
  match a, b with
  | .ok x, .ok y =>
      if h : x = y then isTrue (by rw [h])
      else isFalse (fun hc => h (Except.ok.inj hc))
  | .error x, .error y =>
      if h : x = y then isTrue (by rw [h])
      else isFalse (fun hc => h (Except.error.inj hc))
  | .ok x, .error y => isFalse (fun hc => Except.noConfusion hc)
  | .error x, .ok y => isFalse (fun hc => Except.noConfusion hc)

/-- Whether a `JsError` is a validation (zod) error. -/
def isValidationError : JsError → Bool
  | .zod _ => true
  | _ => false

/-- The test the source uses on candidate API message fields:
`typeof m === "string" && m.trim()`. -/
def isNonBlankString : JsVal → Bool
  | .vStr s => jsTrimTruthy s
  | _ => false

/-- The `code` fallback of the source: a falsy code becomes `-1`. -/
def jsCodeOrNeg1 (v : JsVal) : JsVal :=
  if v.truthy then v else .vNum (-1)

/-- Message/code selection of `classifyError` for a response-carrying
axios error, mirroring the two-tier fallback in src/Error.js lines 59-76:
initial values are the fallback message and `-1`; `responseData.message`
is used when it is a string with non-blank trim, else
`responseData.error.message` under the same test. -/
def classifiedMessageCode (responseData : ResponseData) : String × JsVal :=
  if isNonBlankString responseData.message then
    (responseData.message.asStr, jsCodeOrNeg1 responseData.code)
  else
    match responseData.error with
    | some ef =>
        if isNonBlankString ef.message then
          (ef.message.asStr, jsCodeOrNeg1 ef.code)
        else
          ("Unknown API error occurred.", .vNum (-1))
    | none => ("Unknown API error occurred.", .vNum (-1))

/-- `classifyError` from src/Error.js: a response-carrying axios error
becomes an `ILoveApiError` with the formatted message, an axios error
with a dispatched request but no response becomes a `NetworkError`, an
axios error with neither becomes a setup `NetworkError`, and every other
error is rethrown unchanged. -/
def classifyError : JsError → JsError
  | .axios e =>
      match e.response with
      | some resp =>
          let responseData := resp.data.getD {}
          let mc := classifiedMessageCode responseData
          .iLoveApi
            (mc.1 ++ " (Status: " ++ toString resp.status ++ ", Code: " ++
              mc.2.display ++ ")")
            resp.status
      | none =>
          if e.request then
            .network "No response received from the server."
          else
            .network "An error occurred while setting up the request."
  | e => e

/-- Message/code selection exactly as the claim words it: the first tier
fires whenever `response.data.message` is a non-empty string (no trim). -/
def claimedMessageCode (responseData : ResponseData) : String × JsVal :=
  if responseData.message.isStr && responseData.message.asStr ≠ "" then
    (responseData.message.asStr, jsCodeOrNeg1 responseData.code)
  else
    match responseData.error with
    | some ef =>
        if ef.message.isStr && ef.message.asStr ≠ "" then
          (ef.message.asStr, jsCodeOrNeg1 ef.code)
        else
          ("Unknown API error occurred.", .vNum (-1))
    | none => ("Unknown API error occurred.", .vNum (-1))

/-- The classifier exactly as claim C2 words it, used to compare the claim
against the source behaviour. -/
def classifyErrorClaimed : JsError → JsError
  | .axios e =>
      match e.response with
      | some resp =>
          let responseData := resp.data.getD {}
          let mc := claimedMessageCode responseData
          .iLoveApi
            (mc.1 ++ " (Status: " ++ toString resp.status ++ ", Code: " ++
              mc.2.display ++ ")")
            resp.status
      | none =>
          if e.request then
            .network "No response received from the server."
          else
            .network "An error occurred while setting up the request."
  | e => e

/-- Message selection as the amended claim words it: a message tier is
used when the field holds a string containing a non-whitespace character
(that is, non-empty after trimming); the code next to the tier that was
used is taken with the falsy-to-minus-one fallback. -/
def amendedMessageCode (responseData : ResponseData) : String × JsVal :=
  if responseData.message.isStr && jsTrimTruthy responseData.message.asStr then
    (responseData.message.asStr, jsCodeOrNeg1 responseData.code)
  else
    match responseData.error with
    | some ef =>
        if ef.message.isStr && jsTrimTruthy ef.message.asStr then
          (ef.message.asStr, jsCodeOrNeg1 ef.code)
        else
          ("Unknown API error occurred.", .vNum (-1))
    | none => ("Unknown API error occurred.", .vNum (-1))

/-- The classifier as the amended claim C2 describes it. -/
def classifyErrorAmended : JsError → JsError
  | .axios e =>
      match e.response with
      | some resp =>
          let responseData := resp.data.getD {}
          let mc := amendedMessageCode responseData
          .iLoveApi
            (mc.1 ++ " (Status: " ++ toString resp.status ++ ", Code: " ++
              mc.2.display ++ ")")
            resp.status
      | none =>
          if e.request then
            .network "No response received from the server."
          else
            .network "An error occurred while setting up the request."
  | e => e

/- ### Token manager model (src/Auth.js) -/

/-- The claims of a JWT built or checked by the token manager
(the `JWTPayloadProps` shape of src/Auth.js). -/
structure TokenPayload where
  iss : String
  iat : Int
  nbf : Int
  exp : Int
  jti : String
  file_encryption_key : Option String := none
  deriving DecidableEq, Repr

/-- A JWT string is modelled by the data that determines it: its payload
and the secret it was signed with.  `jsonwebtoken.decode` reads the
payload without checking the signature; `jsonwebtoken.verify` checks
both the signature and the `exp` claim. -/
structure ModelToken where
  payload : TokenPayload
  signedWith : String
  deriving DecidableEq, Repr

/-- Validated self-signed token options (zod schema
`SelfSignedTokenOptions` of src/schema/Auth.js, defaults applied). -/
structure TokenOptions where
  iss : String := "api.ilovepdf.com"
  age : Int := 3600
  file_encryption_key : Option String := none
  deriving DecidableEq, Repr

/-- The state of an `Auth` instance: the cached token (`none` models an
undefined or otherwise falsy cache) and the construction-time fields.
A falsy non-string `secretKey` argument passes the constructor check and
behaves exactly like the empty string everywhere it is read, so it is
stored as `""`. -/
structure AuthState where
  token : Option ModelToken := none
  publicKey : String
  secretKey : String
  tokenOptions : TokenOptions
  deriving DecidableEq, Repr

/-- `jsonwebtoken.verify(token, key)` succeeds iff the signature matches
and the clock timestamp is strictly below the `exp` claim. -/
def jwtVerifyOk (t : ModelToken) (key : String) (now : Int) : Bool :=
  t.signedWith = key && now < t.payload.exp

namespace Auth

/-- `Auth.TIME_DELAY` (src/Auth.js line 32). -/
def TIME_DELAY : Int := 30

/-- `Auth.verifyToken` (src/Auth.js lines 126-153): with no cached token
it returns undefined; with a secret key it runs full JWT verification and
clears the cache on any failure; without one it only compares the decoded
`exp` claim against the current time (seconds) and clears the cache when
`timeNow > exp`.  On success the decoded payload is returned and the
state is untouched.  `now` is the current Unix time in whole seconds. -/
def verifyToken (st : AuthState) (now : Int) :
    Option TokenPayload × AuthState :=
  match st.token with
  | none => (none, st)
  | some t =>
      if st.secretKey ≠ "" then
        if jwtVerifyOk t st.secretKey now then (some t.payload, st)
        else (none, { st with token := none })
      else
        if now > t.payload.exp then (none, { st with token := none })
        else (some t.payload, st)

/-- The private `Auth.#getTokenLocally` (src/Auth.js lines 182-197):
build the payload with the 30-second backdating, sign it with the secret
key, cache and return it. -/
def getTokenLocally (st : AuthState) (now : Int) : ModelToken × AuthState :=
  let payload : TokenPayload :=
    { iss := st.tokenOptions.iss
      iat := now - TIME_DELAY
      nbf := now - TIME_DELAY
      exp := now + st.tokenOptions.age
      jti := st.publicKey
      file_encryption_key := st.tokenOptions.file_encryption_key }
  let t : ModelToken := { payload := payload, signedWith := st.secretKey }
  (t, { st with token := some t })

/-- The private `Auth.#getTokenFromServer` (src/Auth.js lines 161-175).
`resp` is the outcome of the POST to the auth endpoint: a transport error,
or a response whose `data.token` field is `none` when absent or falsy.
A missing token raises a plain error which `classifyError` rethrows
unchanged; a transport error is classified. -/
def getTokenFromServer (st : AuthState)
    (resp : Except JsError (Option ModelToken)) :
    Except JsError ModelToken × AuthState :=
  match resp with
  | .error e => (.error (classifyError e), st)
  | .ok none =>
      (.error (classifyError (.plain "Auth token cannot be retrieved")), st)
  | .ok (some t) => (.ok t, { st with token := some t })

/-- The result of one `Auth.getToken` call: the returned token or thrown
error, the state afterwards, and whether the call performed local signing
or issued a network request. -/
structure GetTokenResult where
  result : Except JsError ModelToken
  state : AuthState
  didSign : Bool
  didNetwork : Bool
  deriving Repr

/-- `Auth.getToken` (src/Auth.js lines 104-119): first self-clean the
cache through `verifyToken`; return a surviving cached token immediately;
otherwise sign locally when a secret key is held, else request a token
from the server (`serverResp` is the outcome of that POST), caching the
result. -/
def getToken (st : AuthState) (now : Int)
    (serverResp : Except JsError (Option ModelToken)) : GetTokenResult :=
  let st1 := (verifyToken st now).2
  match st1.token with
  | some t => { result := .ok t, state := st1, didSign := false, didNetwork := false }
  | none =>
      if st1.secretKey ≠ "" then
        let r := getTokenLocally st1 now
        { result := .ok r.1, state := r.2, didSign := true, didNetwork := false }
      else
        let r := getTokenFromServer st1 serverResp
        match r.1 with
        | .ok t =>
            { result := .ok t, state := { r.2 with token := some t },
              didSign := false, didNetwork := true }
        | .error e =>
            { result := .error e, state := r.2,
              didSign := false, didNetwork := true }

end Auth

/-- Whether the cached token of `st` survives `Auth.verifyToken` at time
`now`: full verification when a secret key is held, otherwise only the
expiry comparison. -/
def cachedTokenValid (st : AuthState) (now : Int) : Bool :=
  match st.token with
  | none => false
  | some t =>
      if st.secretKey ≠ "" then jwtVerifyOk t st.secretKey now
      else now ≤ t.payload.exp

/- ### Auth construction (src/Auth.js lines 81-95) -/

/-- Raw (unvalidated) self-signed token options handed to the `Auth`
constructor. -/
structure RawTokenOptions where
  iss : Option JsVal := none
  age : Option JsVal := none
  file_encryption_key : Option JsVal := none
  deriving DecidableEq, Repr

/-- zod `z.string().optional().default(d)`. -/
def zodOptStringDefault (v : Option JsVal) (d : String) :
    Except JsError String :=
  match v with
  | none => .ok d
  | some (.vStr s) => .ok s
  | some _ => .error (.zod "Expected string")

/-- zod `z.number().optional().default(d)`. -/
def zodOptNumberDefault (v : Option JsVal) (d : Int) : Except JsError Int :=
  match v with
  | none => .ok d
  | some (.vNum n) => .ok n
  | some _ => .error (.zod "Expected number")

/-- zod `z.string().length(16).or(...).or(...).optional()`: an optional
string whose length must be 16, 24 or 32. -/
def zodOptEncryptionKey (v : Option JsVal) : Except JsError (Option String) :=
  match v with
  | none => .ok none
  | some (.vStr s) =>
      if s.length = 16 || s.length = 24 || s.length = 32 then .ok (some s)
      else .error (.zod "Invalid file_encryption_key length")
  | some _ => .error (.zod "Expected string")

/-- The zod schema `SelfSignedTokenOptions` of src/schema/Auth.js. -/
def SelfSignedTokenOptionsParse (r : RawTokenOptions) :
    Except JsError TokenOptions := do
  let iss ← zodOptStringDefault r.iss "api.ilovepdf.com"
  let age ← zodOptNumberDefault r.age 3600
  let fek ← zodOptEncryptionKey r.file_encryption_key
  return { iss := iss, age := age, file_encryption_key := fek }

/-- The `Auth` constructor (src/Auth.js lines 81-95): reject a falsy or
non-string `publicKey`, reject a truthy non-string `secretKey`, then
validate the token options.  A falsy non-string `secretKey` is stored as
`""` (observationally equivalent, see `AuthState`). -/
def authNew (publicKey secretKey : JsVal) (params : RawTokenOptions) :
    Except JsError AuthState :=
  if !publicKey.truthy || !publicKey.isStr then
    .error (.plain "publicKey is required and must be a string.")
  else if secretKey.truthy && !secretKey.isStr then
    .error (.plain "secretKey must be a string.")
  else
    match SelfSignedTokenOptionsParse params with
    | .error e => .error e
    | .ok topts =>
        .ok { token := none, publicKey := publicKey.asStr,
              secretKey := secretKey.asStr, tokenOptions := topts }

/- ### zod schema helpers shared by the task schemas (src/schema/Task.js) -/

/-- zod `z.boolean().optional()`. -/
def zodOptBool (v : Option JsVal) : Except JsError (Option Bool) :=
  match v with
  | none => .ok none
  | some (.vBool b) => .ok (some b)
  | some _ => .error (.zod "Expected boolean")

/-- zod `z.string().optional()`. -/
def zodOptString (v : Option JsVal) : Except JsError (Option String) :=
  match v with
  | none => .ok none
  | some (.vStr s) => .ok (some s)
  | some _ => .error (.zod "Expected string")

/-- zod `z.number().optional()`. -/
def zodOptNumber (v : Option JsVal) : Except JsError (Option Int) :=
  match v with
  | none => .ok none
  | some (.vNum n) => .ok (some n)
  | some _ => .error (.zod "Expected number")

/-- zod `z.string()` (required). -/
def zodString (v : Option JsVal) : Except JsError String :=
  match v with
  | some (.vStr s) => .ok s
  | some _ => .error (.zod "Expected string")
  | none => .error (.zod "Required")

/-- zod `z.boolean().optional().default(d)`. -/
def zodOptBoolDefault (v : Option JsVal) (d : Bool) : Except JsError Bool :=
  match v with
  | none => .ok d
  | some (.vBool b) => .ok b
  | some _ => .error (.zod "Expected boolean")

/-- zod `z.enum(cs).optional().default(d)`. -/
def zodOptEnumDefault (cs : List String) (v : Option JsVal) (d : String) :
    Except JsError String :=
  match v with
  | none => .ok d
  | some (.vStr s) => if s ∈ cs then .ok s else .error (.zod "Invalid enum value")
  | some _ => .error (.zod "Expected enum value")

/- ### Task state (the private fields of TaskI, src/TaskI.js lines 18-75) -/

/-- One entry of the `files` list (`server_filename`/`filename` pairs). -/
structure UploadedFile where
  server_filename : String
  filename : String
  deriving DecidableEq, Repr

/-- The task-scoped axios instance created by a successful non-debug
`start()`: its base URL and the token preset in its bearer header
(`none` when no Authorization header is preset, as in the detached Task
constructor). -/
structure ServerClient where
  baseURL : String
  authToken : Option ModelToken := none
  deriving DecidableEq, Repr

/-- The mutable private fields of a `TaskI` instance.  The tool is a JS
string (the class also has a test-only setter for it); `task_id`,
`remaining_files`, `files` and `server` start out `undefined`, modelled
by `none`. -/
structure TaskIState where
  tool : String
  task_id : Option String := none
  remaining_files : Option Int := none
  files : Option (List UploadedFile) := none
  server : Option ServerClient := none
  deriving DecidableEq, Repr

/-- Truthiness of the optional `task_id` string field. -/
def optStrTruthy (v : Option String) : Bool :=
  match v with
  | some s => s ≠ ""
  | none => false

/-- Truthiness of an optional JS number field (0 is falsy). -/
def optIntTruthy (v : Option Int) : Bool :=
  match v with
  | some n => n ≠ 0
  | none => false

/-- The shared precondition test `!this.#task_id || !this.#server` that
guards every method after `start` (src/TaskI.js lines 138, 170, 206, 251,
287, 319). -/
def taskNotStarted (st : TaskIState) : Bool :=
  !optStrTruthy st.task_id || st.server.isNone

/-- The `process` files test `!Array.isArray(this.#files) ||
!this.#files.length` (src/TaskI.js line 211): the call may proceed only
when `files` is an array with at least one element. -/
def filesNotReady (st : TaskIState) : Bool :=
  match st.files with
  | none => true
  | some l => l.isEmpty

/-- The precondition error message of every post-start method. -/
def startFirstMsg : String :=
  "You need to retrieve task id and assigned server first using start() method."

/-- The precondition error message of `process` when no files are ready. -/
def addFilesFirstMsg : String :=
  "You need to add files first using addFile() method."

/- ### Generic option schemas (src/schema/Task.js via src/unnamed/part_004) -/

/-- Raw options whose only recognized key is an optional boolean `debug`
(`TaskStartGenericOptions`, `TaskDownloadGenericOptions`,
`TaskDetailsGenericOptions`, `TaskDeleteGenericOptions`). -/
structure DebugOnlyOptions where
  debug : Option JsVal := none
  deriving DecidableEq, Repr

/-- Parse a debug-only options object; returns the validated optional
`debug` flag. -/
def parseDebugOnlyOptions (o : DebugOnlyOptions) :
    Except JsError (Option Bool) :=
  zodOptBool o.debug

/-- Raw `TaskAddFileGenericOptions`: required string `cloud_file`,
optional boolean `debug`. -/
structure AddFileOptions where
  cloud_file : Option JsVal := none
  debug : Option JsVal := none
  deriving DecidableEq, Repr

/-- Validated `TaskAddFileGenericOptions`. -/
structure ValidatedAddFileOptions where
  cloud_file : String
  debug : Option Bool := none
  deriving DecidableEq, Repr

/-- Parse `TaskAddFileGenericOptions`. -/
def parseAddFileOptions (o : AddFileOptions) :
    Except JsError ValidatedAddFileOptions := do
  let cf ← zodString o.cloud_file
  let dbg ← zodOptBool o.debug
  return { cloud_file := cf, debug := dbg }

/-- Raw `TaskRemoveFileGenericOptions`: required string `server_filename`,
optional boolean `debug`. -/
structure RemoveFileOptions where
  server_filename : Option JsVal := none
  debug : Option JsVal := none
  deriving DecidableEq, Repr

/-- Validated `TaskRemoveFileGenericOptions`. -/
structure ValidatedRemoveFileOptions where
  server_filename : String
  debug : Option Bool := none
  deriving DecidableEq, Repr

/-- Parse `TaskRemoveFileGenericOptions`. -/
def parseRemoveFileOptions (o : RemoveFileOptions) :
    Except JsError ValidatedRemoveFileOptions := do
  let sf ← zodString o.server_filename
  let dbg ← zodOptBool o.debug
  return { server_filename := sf, debug := dbg }

/-- Raw `TaskProcessGenericOptions`. -/
structure ProcessOptions where
  ignore_errors : Option JsVal := none
  output_filename : Option JsVal := none
  packaged_filename : Option JsVal := none
  file_encryption_key : Option JsVal := none
  try_image_repair : Option JsVal := none
  custom_int : Option JsVal := none
  custom_string : Option JsVal := none
  webhook : Option JsVal := none
  debug : Option JsVal := none
  deriving DecidableEq, Repr

/-- Validated `TaskProcessGenericOptions` with defaults applied. -/
structure ValidatedProcessOptions where
  ignore_errors : Bool
  output_filename : Option String := none
  packaged_filename : Option String := none
  file_encryption_key : Option String := none
  try_image_repair : Bool
  custom_int : Option Int := none
  custom_string : Option String := none
  webhook : Option String := none
  debug : Option Bool := none
  deriving DecidableEq, Repr

/-- Parse `TaskProcessGenericOptions` (src/unnamed/part_004 lines
145-227): all fields optional, `ignore_errors` and `try_image_repair`
default `true`, `file_encryption_key` length in 16/24/32. -/
def parseProcessOptions (o : ProcessOptions) :
    Except JsError ValidatedProcessOptions := do
  let ie ← zodOptBoolDefault o.ignore_errors true
  let ofn ← zodOptString o.output_filename
  let pfn ← zodOptString o.packaged_filename
  let fek ← zodOptEncryptionKey o.file_encryption_key
  let tir ← zodOptBoolDefault o.try_image_repair true
  let ci ← zodOptNumber o.custom_int
  let cs ← zodOptString o.custom_string
  let wh ← zodOptString o.webhook
  let dbg ← zodOptBool o.debug
  return { ignore_errors := ie, output_filename := ofn,
           packaged_filename := pfn, file_encryption_key := fek,
           try_image_repair := tir, custom_int := ci, custom_string := cs,
           webhook := wh, debug := dbg }

/- ### Tool option schemas (src/unnamed/part_004 lines 445-613) -/

/-- Raw `TaskProcessConvertImageOptions` object. -/
structure RawConvertOptions where
  «to» : Option JsVal := none
  gif_time : Option JsVal := none
  gif_loop : Option JsVal := none
  deriving DecidableEq, Repr

/-- Validated convert-image options with defaults applied. -/
structure ConvertOptions where
  «to» : String
  gif_time : Int
  gif_loop : Bool
  deriving DecidableEq, Repr

/-- `TaskProcessConvertImageOptions` is an `.optional()` object: an
absent argument parses to `undefined`; a present object gets the enum
check on `to` (default jpg) and the gif defaults. -/
def parseConvertImageOptions (o : Option RawConvertOptions) :
    Except JsError (Option ConvertOptions) :=
  match o with
  | none => .ok none
  | some r => do
      let t ← zodOptEnumDefault ["jpg", "png", "gif", "gif_animation", "heic"] r.«to» "jpg"
      let gt ← (match r.gif_time with
        | none => .ok 50
        | some (.vNum n) => .ok n
        | some _ => .error (.zod "Expected number"))
      let gl ← zodOptBoolDefault r.gif_loop true
      return some { «to» := t, gif_time := gt, gif_loop := gl }

/-- Raw `TaskProcessUpscaleImageOptions` object. -/
structure RawUpscaleOptions where
  multiplier : Option JsVal := none
  deriving DecidableEq, Repr

/-- Validated upscale-image options. -/
structure UpscaleOptions where
  multiplier : Int
  deriving DecidableEq, Repr

/-- `TaskProcessUpscaleImageOptions` (src/unnamed/part_004 lines 476-481):
a required object with a required number `multiplier` refined to the set
containing 2 and 4.  An absent argument fails to parse. -/
def parseUpscaleImageOptions (o : Option RawUpscaleOptions) :
    Except JsError UpscaleOptions :=
  match o with
  | none => .error (.zod "Required")
  | some r =>
      match r.multiplier with
      | none => .error (.zod "multiplier: Required")
      | some (.vNum m) =>
          if m = 2 || m = 4 then .ok { multiplier := m }
          else .error (.zod "multiplier: Invalid value")
      | some _ => .error (.zod "multiplier: Expected number")

/-- Raw watermark element object
(`TaskProcessWatermarkImageElementsProps`). -/
structure RawWatermarkElement where
  type : Option JsVal := none
  text : Option JsVal := none
  image : Option JsVal := none
  gravity : Option JsVal := none
  vertical_adjustment_percent : Option JsVal := none
  horizontal_adjustment_percent : Option JsVal := none
  rotation : Option JsVal := none
  font_family : Option JsVal := none
  font_style : Option JsVal := none
  font_size : Option JsVal := none
  font_color : Option JsVal := none
  transparency : Option JsVal := none
  mosaic : Option JsVal := none
  deriving DecidableEq, Repr

/-- Validated watermark element with defaults applied
(`font_style := none` models the `null` default). -/
structure WatermarkElement where
  type : String
  text : Option String := none
  image : Option String := none
  gravity : String := "Center"
  vertical_adjustment_percent : Int := 0
  horizontal_adjustment_percent : Int := 0
  rotation : Int := 0
  font_family : String := "Arial"
  font_style : Option String := none
  font_size : Int := 14
  font_color : String := "#000000"
  transparency : Int := 100
  mosaic : Bool := false
  deriving DecidableEq, Repr

/-- zod `z.number().min(lo).max(hi).optional().default(d)`: values out of
range are rejected, not clamped. -/
def zodOptNumRangeDefault (v : Option JsVal) (lo hi d : Int) :
    Except JsError Int :=
  match v with
  | none => .ok d
  | some (.vNum n) =>
      if lo ≤ n && n ≤ hi then .ok n else .error (.zod "Number out of range")
  | some _ => .error (.zod "Expected number")

/-- zod `z.enum(["Bold","Italic"]).nullable().optional().default(null)`. -/
def zodFontStyle (v : Option JsVal) : Except JsError (Option String) :=
  match v with
  | none => .ok none
  | some .vNull => .ok none
  | some (.vStr s) =>
      if s = "Bold" || s = "Italic" then .ok (some s)
      else .error (.zod "Invalid enum value")
  | some _ => .error (.zod "Expected enum value")

/-- Parse one watermark element, including the refinement that `text` is
required (truthy) when `type` is text and `image` when `type` is image. -/
def parseWatermarkElement (r : RawWatermarkElement) :
    Except JsError WatermarkElement := do
  let ty ← (match r.type with
    | some (.vStr s) =>
        if s = "image" || s = "text" then Except.ok s
        else Except.error (.zod "type: Invalid enum value")
    | some _ => Except.error (.zod "type: Expected enum value")
    | none => Except.error (.zod "type: Required"))
  let tx ← zodOptString r.text
  let im ← zodOptString r.image
  let gv ← zodOptEnumDefault
      ["North", "NorthEast", "NorthWest", "Center", "CenterEast",
       "CenterWest", "East", "West", "South", "SouthEast", "SouthWest"]
      r.gravity "Center"
  let va ← zodOptNumberDefault r.vertical_adjustment_percent 0
  let ha ← zodOptNumberDefault r.horizontal_adjustment_percent 0
  let rot ← zodOptNumRangeDefault r.rotation 0 360 0
  let ff ← zodOptEnumDefault
      ["Arial", "Arial Unicode MS", "Verdana", "Courier", "Times New Roman",
       "Comic Sans MS", "WenQuanYi Zen Hei", "Lohit Marathi"]
      r.font_family "Arial"
  let fs ← zodFontStyle r.font_style
  let fsz ← zodOptNumberDefault r.font_size 14
  let fc ← zodOptStringDefault r.font_color "#000000"
  let tr ← zodOptNumRangeDefault r.transparency 1 100 100
  let mo ← zodOptBoolDefault r.mosaic false
  let el : WatermarkElement :=
    { type := ty, text := tx, image := im, gravity := gv,
      vertical_adjustment_percent := va, horizontal_adjustment_percent := ha,
      rotation := rot, font_family := ff, font_style := fs, font_size := fsz,
      font_color := fc, transparency := tr, mosaic := mo }
  if ty = "text" && !(match tx with | some s => s ≠ "" | none => false) then
    Except.error
      (.zod "text is required when type is text, image is required when type is image")
  else if ty = "image" && !(match im with | some s => s ≠ "" | none => false) then
    Except.error
      (.zod "text is required when type is text, image is required when type is image")
  else
    return el

/-- Raw `TaskProcessWatermarkImageOptions` object. -/
structure RawWatermarkOptions where
  elements : Option (List RawWatermarkElement) := none
  deriving DecidableEq, Repr

/-- Validated watermark options. -/
structure WatermarkOptions where
  elements : List WatermarkElement
  deriving DecidableEq, Repr

/-- Parse a list of raw watermark elements. -/
def parseWatermarkElements : List RawWatermarkElement →
    Except JsError (List WatermarkElement)
  | [] => .ok []
  | r :: rest => do
      let e ← parseWatermarkElement r
      let es ← parseWatermarkElements rest
      return e :: es

/-- `TaskProcessWatermarkImageOptions` (src/unnamed/part_004 lines
594-599): a required object with a required `elements` array of at least
one validated element. -/
def parseWatermarkImageOptions (o : Option RawWatermarkOptions) :
    Except JsError WatermarkOptions :=
  match o with
  | none => .error (.zod "Required")
  | some r =>
      match r.elements with
      | none => .error (.zod "elements: Required")
      | some [] => .error (.zod "elements: At least one element required")
      | some es => do
          let ves ← parseWatermarkElements es
          return { elements := ves }

/- ### Tool-option dispatch (src/util/task.util.js) -/

/-- The value stored under one key of the `toolOptions` object: each of
the four recognized keys holds the raw options for its tool.  The value
under the removebackgroundimage key is never read (its validator resolves
an empty object without looking at the argument). -/
inductive RawToolValue where
  | convert (o : RawConvertOptions)
  | removebg
  | upscale (o : RawUpscaleOptions)
  | watermark (o : RawWatermarkOptions)
  deriving DecidableEq, Repr

/-- The `toolOptions` object passed to `process`: an optional sub-object
per recognized tool key. -/
structure ToolOptionsBag where
  convertimage : Option RawConvertOptions := none
  removebackgroundimage : Bool := false
  upscaleimage : Option RawUpscaleOptions := none
  watermarkimage : Option RawWatermarkOptions := none
  deriving DecidableEq, Repr

/-- The JS property read `options?.[tool]`: the value the dispatcher
hands to the selected validator. -/
def ToolOptionsBag.lookup (bag : ToolOptionsBag) (tool : String) :
    Option RawToolValue :=
  if tool = "convertimage" then bag.convertimage.map RawToolValue.convert
  else if tool = "removebackgroundimage" then
    (if bag.removebackgroundimage then some RawToolValue.removebg else none)
  else if tool = "upscaleimage" then bag.upscaleimage.map RawToolValue.upscale
  else if tool = "watermarkimage" then bag.watermarkimage.map RawToolValue.watermark
  else none

/-- The validated tool options produced by the dispatcher. -/
inductive ValidatedToolOptions where
  | convert (o : Option ConvertOptions)
  | removebg
  | upscale (o : UpscaleOptions)
  | watermark (o : WatermarkOptions)
  deriving DecidableEq, Repr

/-- `validateProcessToolOptions` (src/util/task.util.js lines 10-25):
select the validator for the bound tool from the tool-keyed table — an
unknown tool raises the unsupported-tool error — and run it on the
sub-object of `toolOptions` keyed by that same tool.  The
removebackgroundimage validator resolves an empty object without reading
its argument. -/
def validateProcessToolOptions (tool : String) (bag : ToolOptionsBag) :
    Except JsError ValidatedToolOptions :=
  if tool = "convertimage" then
    (parseConvertImageOptions bag.convertimage).map ValidatedToolOptions.convert
  else if tool = "removebackgroundimage" then
    .ok ValidatedToolOptions.removebg
  else if tool = "upscaleimage" then
    (parseUpscaleImageOptions bag.upscaleimage).map ValidatedToolOptions.upscale
  else if tool = "watermarkimage" then
    (parseWatermarkImageOptions bag.watermarkimage).map ValidatedToolOptions.watermark
  else
    .error (.plain ("Unsupported tool: " ++ tool))

/- ### TaskI methods (src/TaskI.js) -/

/-- The body of the response to `GET /start/{tool}`; `none` fields model
absent values (the source checks each field for truthiness). -/
structure StartRespData where
  server : Option String := none
  task : Option String := none
  remaining_files : Option Int := none
  deriving DecidableEq, Repr

/-- The outcome of the `GET /start/...` exchange: a response whose body
is `data` (`none` models a falsy body), or a thrown transport error. -/
inductive StartResp where
  | ok (data : Option StartRespData)
  | fail (e : JsError)
  deriving DecidableEq, Repr

/-- What a `start` call resolves with: the server/task/remaining-files
triple in normal mode, or the raw response body in debug mode. -/
inductive StartReturn where
  | triple (server task_id : String) (remaining_files : Int)
  | debugData (data : Option StartRespData)
  deriving DecidableEq, Repr

/-- The required-fields test of `start` (src/TaskI.js lines 97-102):
`response.data`, `data.server`, `data.task` and `data.remaining_files`
must all be truthy. -/
def goodStartData (data : Option StartRespData) : Bool :=
  match data with
  | none => false
  | some d =>
      optStrTruthy d.server && optStrTruthy d.task &&
        optIntTruthy d.remaining_files

/-- `TaskI.start` (src/TaskI.js lines 84-128).  `tokenRes` is the outcome
of `auth.getToken()` and `resp` the outcome of the GET on the fixed
server.  Options are validated first (a zod failure propagates
unclassified); inside the try block, a token failure or transport failure
is classified; in non-debug mode a response missing a truthy `server`,
`task` or `remaining_files` raises the invalid-response error (a plain
error, rethrown unchanged by the classifier); on success the task-scoped
client, `task_id`, `remaining_files` and the empty `files` list are
stored together and the triple is returned.  Debug mode resolves with
the raw body and stores nothing. -/
def start (st : TaskIState) (opts : DebugOnlyOptions)
    (tokenRes : Except JsError ModelToken) (resp : StartResp) :
    Except JsError StartReturn × TaskIState :=
  match parseDebugOnlyOptions opts with
  | .error e => (.error e, st)
  | .ok dbg =>
      let isDebug := dbg.getD false
      match tokenRes with
      | .error e => (.error (classifyError e), st)
      | .ok token =>
          match resp with
          | .fail e => (.error (classifyError e), st)
          | .ok data =>
              if isDebug then (.ok (.debugData data), st)
              else if goodStartData data then
                let d := data.getD {}
                let sv := d.server.getD ""
                let tid := d.task.getD ""
                let rem := d.remaining_files.getD 0
                (.ok (.triple sv tid rem),
                 { st with
                    server := some
                      { baseURL := "https://" ++ sv ++ "/v1"
                        authToken := some token },
                    task_id := some tid,
                    remaining_files := some rem,
                    files := some [] })
              else
                (.error (classifyError
                  (.plain "Invalid response: missing required fields")), st)

/-- `TaskI.addFile` (src/TaskI.js lines 137-160): precondition check,
option validation, then the POST to the upload endpoint whose outcome is
`resp`; the response body is returned as-is and no state field is ever
assigned. -/
def addFile (st : TaskIState) (o : AddFileOptions)
    (resp : Except JsError JsVal) : Except JsError JsVal × TaskIState :=
  if taskNotStarted st then (.error (.plain startFirstMsg), st)
  else
    match parseAddFileOptions o with
    | .error e => (.error e, st)
    | .ok _v =>
        match resp with
        | .error e => (.error (classifyError e), st)
        | .ok data => (.ok data, st)

/-- `TaskI.deleteFile` (src/TaskI.js lines 169-195): precondition check,
option validation, the DELETE on the upload endpoint; resolves with the
body only in debug mode. -/
def deleteFile (st : TaskIState) (o : RemoveFileOptions)
    (resp : Except JsError JsVal) :
    Except JsError (Option JsVal) × TaskIState :=
  if taskNotStarted st then (.error (.plain startFirstMsg), st)
  else
    match parseRemoveFileOptions o with
    | .error e => (.error e, st)
    | .ok v =>
        match resp with
        | .error e => (.error (classifyError e), st)
        | .ok data =>
            if v.debug.getD false then (.ok (some data), st)
            else (.ok none, st)

/-- `TaskI.process` (src/TaskI.js lines 205-241): the two precondition
checks come first, in order, before either option validation; then the
generic options and the tool options (dispatched on the bound tool) are
validated; then the POST to the process endpoint is issued and its body
returned.  No state field is ever assigned. -/
def process (st : TaskIState) (opts : ProcessOptions) (toolOpts : ToolOptionsBag)
    (resp : Except JsError JsVal) : Except JsError JsVal × TaskIState :=
  if taskNotStarted st then (.error (.plain startFirstMsg), st)
  else if filesNotReady st then (.error (.plain addFilesFirstMsg), st)
  else
    match parseProcessOptions opts with
    | .error e => (.error e, st)
    | .ok _v =>
        match validateProcessToolOptions st.tool toolOpts with
        | .error e => (.error e, st)
        | .ok _tv =>
            match resp with
            | .error e => (.error (classifyError e), st)
            | .ok data => (.ok data, st)

/-- An HTTP response as the download method sees it. -/
structure HttpResponse where
  status : Int := 200
  data : JsVal := .vUndefined
  deriving DecidableEq, Repr

/-- What `download` resolves with: the full response in normal mode, only
the body in debug mode. -/
inductive DownloadReturn where
  | full (r : HttpResponse)
  | body (d : JsVal)
  deriving DecidableEq, Repr

/-- `TaskI.download` (src/TaskI.js lines 250-277). -/
def download (st : TaskIState) (o : DebugOnlyOptions)
    (resp : Except JsError HttpResponse) :
    Except JsError DownloadReturn × TaskIState :=
  if taskNotStarted st then (.error (.plain startFirstMsg), st)
  else
    match parseDebugOnlyOptions o with
    | .error e => (.error e, st)
    | .ok dbg =>
        match resp with
        | .error e => (.error (classifyError e), st)
        | .ok r =>
            if dbg.getD false then (.ok (.body r.data), st)
            else (.ok (.full r), st)

/-- `TaskI.details` (src/TaskI.js lines 286-309): always resolves with
the response body. -/
def details (st : TaskIState) (o : DebugOnlyOptions)
    (resp : Except JsError HttpResponse) :
    Except JsError JsVal × TaskIState :=
  if taskNotStarted st then (.error (.plain startFirstMsg), st)
  else
    match parseDebugOnlyOptions o with
    | .error e => (.error e, st)
    | .ok _dbg =>
        match resp with
        | .error e => (.error (classifyError e), st)
        | .ok r => (.ok r.data, st)

/-- `TaskI.delete` (src/TaskI.js lines 318-340): resolves with the body
only in debug mode. -/
def deleteTask (st : TaskIState) (o : DebugOnlyOptions)
    (resp : Except JsError HttpResponse) :
    Except JsError (Option JsVal) × TaskIState :=
  if taskNotStarted st then (.error (.plain startFirstMsg), st)
  else
    match parseDebugOnlyOptions o with
    | .error e => (.error e, st)
    | .ok dbg =>
        match resp with
        | .error e => (.error (classifyError e), st)
        | .ok r =>
            if dbg.getD false then (.ok (some r.data), st)
            else (.ok none, st)

/- ### TaskI accessors (src/TaskI.js lines 352-454) -/

/-- `TaskI.getTool`: the stored tool string, or undefined when falsy
(the accessor is a disjunction of the field with undefined). -/
def getTool (st : TaskIState) : Option String :=
  if st.tool = "" then none else some st.tool

/-- `TaskI.getTaskId`: the stored task id, or undefined when falsy. -/
def getTaskId (st : TaskIState) : Option String :=
  match st.task_id with
  | some s => if s = "" then none else some s
  | none => none

/-- `TaskI.getRemainingFiles`: the stored count, or undefined when falsy
(in particular 0 is reported as undefined). -/
def getRemainingFiles (st : TaskIState) : Option Int :=
  match st.remaining_files with
  | some n => if n = 0 then none else some n
  | none => none

/-- `TaskI.getUploadedFiles`: the stored array, or undefined when unset;
arrays are always truthy in JS, so an empty list is returned as-is. -/
def getUploadedFiles (st : TaskIState) : Option (List UploadedFile) :=
  st.files

/-- `TaskI.getServer`: the stored axios instance, or undefined when
unset. -/
def getServer (st : TaskIState) : Option ServerClient :=
  st.server

/- ### DetachedTask construction (src/Task.js lines 59-78) -/

/-- The fields of a constructed detached `Task`. -/
structure DetachedTask where
  auth : AuthState
  task_id : String
  server : ServerClient
  deriving DecidableEq, Repr

/-- The constructor argument test of src/Task.js lines 60-65: `taskId`
and `taskServer` must both be truthy strings. -/
def taskIdServerBad (taskId taskServer : JsVal) : Bool :=
  !taskId.truthy || !taskServer.truthy || !taskId.isStr || !taskServer.isStr

/-- The `Task` constructor (src/Task.js lines 59-78), mirroring the
source order: the `taskId`/`taskServer` check runs first; only then is
the internal `Auth` constructed (raising the publicKey/secretKey errors);
finally the task-scoped client is created. -/
def taskNew (publicKey secretKey taskId taskServer : JsVal)
    (params : RawTokenOptions) : Except JsError DetachedTask :=
  if taskIdServerBad taskId taskServer then
    .error (.plain "taskId and taskServer are required and should be string.")
  else
    match authNew publicKey secretKey params with
    | .error e => .error e
    | .ok auth =>
        .ok { auth := auth, task_id := taskId.asStr,
              server := { baseURL := "https://" ++ taskServer.asStr ++ "/v1"
                          authToken := none } }

/-- The state reached after a sequence of `addFile` calls, each given by
its raw options and the outcome of its POST. -/
def addFileSeq (st : TaskIState)
    (calls : List (AddFileOptions × Except JsError JsVal)) : TaskIState :=
  calls.foldl (fun s c => (addFile s c.1 c.2).2) st

/- ### Concrete fixtures used by witnesses -/

/-- A sample signed token. -/
def sampleToken : ModelToken :=
  { payload := { iss := "api.ilovepdf.com", iat := 70, nbf := 70, exp := 3700,
                 jti := "project-public-key" }
    signedWith := "project-secret-key" }

/-- A freshly constructed task session bound to the upscale tool. -/
def freshSession : TaskIState := { tool := "upscaleimage" }

/-- A session whose `start()` succeeded (no files uploaded yet). -/
def startedSession : TaskIState :=
  { tool := "upscaleimage", task_id := some "tid", remaining_files := some 3,
    files := some [],
    server := some { baseURL := "https://srv/v1", authToken := some sampleToken } }

/-- A session with one uploaded file injected through the test-only
setter, as the projects test suite does. -/
def sessionWithFile : TaskIState :=
  { startedSession with
      files := some [{ server_filename := "srv-file.jpg", filename := "a.jpg" }] }

/-- An auth state holding a valid cached token. -/
def cachedAuth : AuthState :=
  { token := some sampleToken, publicKey := "project-public-key",
    secretKey := "project-secret-key", tokenOptions := {} }

/-- A token whose `exp` claim is already in the past at the witness
clock time. -/
def expiredToken : ModelToken :=
  { payload := { iss := "api.ilovepdf.com", iat := 10, nbf := 10, exp := 50,
                 jti := "project-public-key" }
    signedWith := "project-secret-key" }

/-- An auth state caching an expired token. -/
def expiredAuth : AuthState := { cachedAuth with token := some expiredToken }

/-- An auth state with an empty cache and a secret key. -/
def noTokenAuth : AuthState := { cachedAuth with token := none }

/-- A session whose stored fields are set but falsy (via the test-only
setters): empty tool, empty task id, zero remaining files. -/
def falsySession : TaskIState :=
  { tool := "", task_id := some "", remaining_files := some 0,
    files := some [], server := none }

/-- The `GET /start` outcome used by witnesses: a server, task id and
remaining-files count are all present and truthy. -/
def startOkResp : StartResp :=
  .ok (some { server := some "srv", task := some "tid",
              remaining_files := some 3 })


/-- The error response carrying a whitespace-only (hence non-empty but
blank-after-trim) top-level message, used as the C2 counterexample. -/
def blankMessageErr : JsError :=
  JsError.axios
    { response :=
        some { status := 400
               data := some { message := JsVal.vStr " "
                              code := JsVal.vNum 7 } } }

/- ### Theorems -/

/-- The message/code selection of the source agrees pointwise with the
amended-claim description (trim-aware non-blankness). -/
theorem messageCode_amended_agrees (d : ResponseData) :
    classifiedMessageCode d = amendedMessageCode d := by
  have hv : ∀ v : JsVal, isNonBlankString v = (v.isStr && jsTrimTruthy v.asStr) := by
    intro v
    cases v <;> simp [isNonBlankString, JsVal.isStr, JsVal.asStr, jsTrimTruthy]
  unfold classifiedMessageCode amendedMessageCode
  simp only [hv]

/-- Claim C2 (amended): `classifyError` is total on the error universe
(raising is modelled by returning the thrown error, so it never falls
through), and it behaves exactly as the amended claim describes: for a
response-carrying axios error it raises `ILoveApiError` with the
formatted message built from the two-tier fallback where a message tier
fires when the field is a string that is non-empty after trimming, with
the sibling code and the falsy-to-minus-one fallback; with a request but
no response it raises the no-response `NetworkError`; with neither, the
setup `NetworkError`; every non-axios error is re-raised unchanged. -/
theorem claim_C2_theorem (e : JsError) :
    classifyError e = classifyErrorAmended e := by
  cases e with
  | axios a =>
      cases a with
      | mk response request =>
          cases response with
          | none => rfl
          | some resp =>
              simp only [classifyError, classifyErrorAmended,
                messageCode_amended_agrees]
  | plain m => rfl
  | zod m => rfl
  | iLoveApi m s => rfl
  | network m => rfl

/-- Claim C2 counterexample: with `response.data.message` a whitespace
string (non-empty, but blank after trimming) the source skips the first
tier and falls back, while the claim as stated selects it.  The concrete
input has status 400, message a single space, code 7. -/
theorem claim_C2_counterexample :
    classifyError blankMessageErr ≠ classifyErrorClaimed blankMessageErr ∧
    classifyError blankMessageErr
      = .iLoveApi "Unknown API error occurred. (Status: 400, Code: -1)" 400 ∧
    classifyErrorClaimed blankMessageErr
      = .iLoveApi "  (Status: 400, Code: 7)" 400 := by
  refine ⟨?_, ?_, ?_⟩ <;> decide

/-- If the task id or the server client is unset, the shared precondition
test of the post-start methods trips. -/
theorem taskNotStarted_of_unset {st : TaskIState}
    (h : st.task_id = none ∨ st.server = none) : taskNotStarted st = true := by
  cases h with
  | inl h1 => simp [taskNotStarted, optStrTruthy, h1]
  | inr h1 => simp [taskNotStarted, h1]

/-- A truthy task id together with a set server client passes the shared
precondition test. -/
theorem taskNotStarted_false {st : TaskIState} {tid : String}
    (h1 : st.task_id = some tid) (h2 : tid ≠ "") (h3 : st.server.isSome = true) :
    taskNotStarted st = false := by
  cases hs : st.server with
  | none => rw [hs] at h3; simp at h3
  | some sc => simp [taskNotStarted, optStrTruthy, h1, h2, hs]

/-- An unset or empty files list trips the files precondition of
`process`. -/
theorem filesNotReady_of_empty {st : TaskIState}
    (h : st.files = none ∨ st.files = some []) : filesNotReady st = true := by
  cases h with
  | inl h1 => simp [filesNotReady, h1]
  | inr h1 => simp [filesNotReady, h1]

/-- A nonempty files list passes the files precondition of `process`. -/
theorem filesNotReady_false {st : TaskIState} {l : List UploadedFile}
    (h : st.files = some l) (hl : l ≠ []) : filesNotReady st = false := by
  cases l with
  | nil => exact absurd rfl hl
  | cons a as => simp [filesNotReady, h]

/-- Claim C3: on a session whose start never succeeded (task id or server
client unset), each of the six post-start methods raises the
start-first precondition error for every options object and every
transport outcome, hence before any validation or network call; and on a
session with a truthy task id and a set server but an unset or empty
files list, `process` raises the add-files-first error, again for every
options object, hence before validating its options. -/
theorem claim_C3 (st : TaskIState) :
    ((st.task_id = none ∨ st.server = none) →
      (∀ o r, (addFile st o r).1 = .error (.plain startFirstMsg)) ∧
      (∀ o r, (deleteFile st o r).1 = .error (.plain startFirstMsg)) ∧
      (∀ o t r, (process st o t r).1 = .error (.plain startFirstMsg)) ∧
      (∀ o r, (download st o r).1 = .error (.plain startFirstMsg)) ∧
      (∀ o r, (details st o r).1 = .error (.plain startFirstMsg)) ∧
      (∀ o r, (deleteTask st o r).1 = .error (.plain startFirstMsg))) ∧
    (∀ tid, st.task_id = some tid → tid ≠ "" → st.server.isSome = true →
      (st.files = none ∨ st.files = some []) →
      ∀ o t r, (process st o t r).1 = .error (.plain addFilesFirstMsg)) := by
  constructor
  · intro h
    have hns := taskNotStarted_of_unset h
    exact ⟨fun o r => by simp [addFile, hns],
           fun o r => by simp [deleteFile, hns],
           fun o t r => by simp [process, hns],
           fun o r => by simp [download, hns],
           fun o r => by simp [details, hns],
           fun o r => by simp [deleteTask, hns]⟩
  · intro tid h1 h2 h3 h4 o t r
    have hns := taskNotStarted_false h1 h2 h3
    have hf := filesNotReady_of_empty h4
    simp [process, hns, hf]

/-- Claim C3 witness: the fresh session raises the start-first error on
`addFile`, and the just-started session (empty files list) raises the
add-files-first error on `process`, at concrete inputs. -/
theorem claim_C3_witness :
    (addFile freshSession { cloud_file := some (.vStr "https://img/a.jpg") }
        (.ok .vNull)).1 = .error (.plain startFirstMsg) ∧
    (process startedSession {} {} (.ok .vNull)).1
      = .error (.plain addFilesFirstMsg) := by
  constructor
  · exact ((claim_C3 freshSession).1 (Or.inl rfl)).1 _ _
  · exact (claim_C3 startedSession).2 "tid" rfl (by decide) rfl (Or.inr rfl) _ _ _

/-- A truthy optional string has a nonempty default-extracted value. -/
theorem optStrTruthy_getD {v : Option String} (h : optStrTruthy v = true) :
    v.getD "" ≠ "" := by
  cases v with
  | none => simp [optStrTruthy] at h
  | some s => simpa [optStrTruthy] using h

/-- A truthy optional number has a nonzero default-extracted value. -/
theorem optIntTruthy_getD {v : Option Int} (h : optIntTruthy v = true) :
    v.getD 0 ≠ 0 := by
  cases v with
  | none => simp [optIntTruthy] at h
  | some n => simpa [optIntTruthy] using h

/-- `addFile` never assigns any state field: the session state after any
`addFile` call equals the state before it. -/
theorem addFile_state (st : TaskIState) (o : AddFileOptions)
    (r : Except JsError JsVal) : (addFile st o r).2 = st := by
  unfold addFile
  by_cases h : taskNotStarted st = true
  · simp [h]
  · simp only [h]
    cases hp : parseAddFileOptions o with
    | error e => simp
    | ok v => cases r <;> simp

/-- A whole sequence of `addFile` calls leaves the session state
unchanged. -/
theorem addFileSeq_state (s2 : TaskIState)
    (calls : List (AddFileOptions × Except JsError JsVal)) :
    addFileSeq s2 calls = s2 := by
  induction calls generalizing s2 with
  | nil => rfl
  | cons c rest ih =>
      show addFileSeq (addFile s2 c.1 c.2).2 rest = s2
      rw [addFile_state]
      exact ih s2

/-- What a `start` call that resolved with the server/task/remaining
triple did to the state: the task-scoped client, task id, remaining
files and the empty files list were stored, the id and count are truthy,
and the tool is untouched. -/
theorem start_triple_facts (st : TaskIState) (opts : DebugOnlyOptions)
    (tokenRes : Except JsError ModelToken) (resp : StartResp)
    (sv tid : String) (rem : Int)
    (h : (start st opts tokenRes resp).1 = .ok (.triple sv tid rem)) :
    (start st opts tokenRes resp).2.files = some [] ∧
    (start st opts tokenRes resp).2.task_id = some tid ∧ tid ≠ "" ∧
    (start st opts tokenRes resp).2.server.isSome = true ∧
    (start st opts tokenRes resp).2.tool = st.tool ∧
    (start st opts tokenRes resp).2.remaining_files = some rem ∧ rem ≠ 0 := by
  unfold start at h ⊢
  cases hp : parseDebugOnlyOptions opts with
  | error e => rw [hp] at h; simp at h
  | ok dbg =>
      rw [hp] at h
      cases tokenRes with
      | error e => simp at h
      | ok tok =>
          cases resp with
          | fail e => simp at h
          | ok data =>
              by_cases hd : dbg.getD false = true
              · simp [hd] at h
              · cases data with
                | none => simp [hd, goodStartData] at h
                | some d =>
                    by_cases hg : goodStartData (some d) = true
                    · have hg2 := hg
                      simp only [goodStartData, Bool.and_eq_true] at hg2
                      obtain ⟨⟨hsv, htid⟩, hrem⟩ := hg2
                      simp [hd, hg] at h ⊢
                      obtain ⟨h1, h2, h3⟩ := h
                      subst h1
                      subst h2
                      subst h3
                      simp [optStrTruthy_getD htid, optIntTruthy_getD hrem]
                    · simp [hd, hg] at h

/-- Claim C1: a successful non-debug `start` initializes the uploaded
files to the empty list; `addFile` never assigns any state field (in
particular it never appends to the uploaded files); hence after the
successful start and any number of `addFile` calls the uploaded-files
accessor still reports the empty list and every subsequent `process`
call raises the add-files-first precondition error — the non-empty-files
precondition cannot be satisfied through the public `addFile` flow. -/
theorem claim_C1 (st : TaskIState) (opts : DebugOnlyOptions)
    (tokenRes : Except JsError ModelToken) (resp : StartResp)
    (sv tid : String) (rem : Int)
    (h : (start st opts tokenRes resp).1 = .ok (.triple sv tid rem)) :
    (start st opts tokenRes resp).2.files = some [] ∧
    (∀ s2 o r, (addFile s2 o r).2 = s2) ∧
    ∀ calls,
      addFileSeq (start st opts tokenRes resp).2 calls
        = (start st opts tokenRes resp).2 ∧
      getUploadedFiles (addFileSeq (start st opts tokenRes resp).2 calls)
        = some [] ∧
      ∀ po tb r,
        (process (addFileSeq (start st opts tokenRes resp).2 calls) po tb r).1
          = .error (.plain addFilesFirstMsg) := by
  obtain ⟨hf, hid, hne, hsrv, -, -, -⟩ :=
    start_triple_facts st opts tokenRes resp sv tid rem h
  refine ⟨hf, fun s2 o r => addFile_state s2 o r, fun calls => ?_⟩
  rw [addFileSeq_state]
  refine ⟨rfl, hf, fun po tb r => ?_⟩
  have hns := taskNotStarted_false hid hne hsrv
  have hfr := filesNotReady_of_empty (Or.inr hf)
  simp [process, hns, hfr]

/-- Claim C1 witness: a concrete successful start followed by one
concrete `addFile`, after which `process` still raises the
add-files-first error. -/
theorem claim_C1_witness :
    (start freshSession {} (.ok sampleToken) startOkResp).2.files = some [] ∧
    (addFile (start freshSession {} (.ok sampleToken) startOkResp).2
        { cloud_file := some (.vStr "https://img/a.jpg") } (.ok .vNull)).2
      = (start freshSession {} (.ok sampleToken) startOkResp).2 ∧
    (process (addFileSeq (start freshSession {} (.ok sampleToken) startOkResp).2
        [({ cloud_file := some (.vStr "https://img/a.jpg") }, .ok .vNull)])
        {} {} (.ok .vNull)).1 = .error (.plain addFilesFirstMsg) := by
  have h : (start freshSession {} (.ok sampleToken) startOkResp).1
      = .ok (.triple "srv" "tid" 3) := by rfl
  have hc := claim_C1 freshSession {} (.ok sampleToken) startOkResp "srv" "tid" 3 h
  exact ⟨hc.1, hc.2.1 _ _ _, (hc.2.2 _).2.2 _ _ _⟩

/-- `process` never assigns any state field. -/
theorem process_state (st : TaskIState) (o : ProcessOptions)
    (t : ToolOptionsBag) (r : Except JsError JsVal) :
    (process st o t r).2 = st := by
  unfold process
  by_cases h1 : taskNotStarted st = true
  · simp [h1]
  · simp only [h1]
    by_cases h2 : filesNotReady st = true
    · simp [h2]
    · simp only [h2]
      cases hp : parseProcessOptions o with
      | error e => simp
      | ok v =>
          cases hv : validateProcessToolOptions st.tool t with
          | error e => simp
          | ok tv => cases r <;> simp

/-- A `start` call that threw left every state field untouched. -/
theorem start_error_state (st : TaskIState) (opts : DebugOnlyOptions)
    (tokenRes : Except JsError ModelToken) (resp : StartResp) (e : JsError)
    (h : (start st opts tokenRes resp).1 = .error e) :
    (start st opts tokenRes resp).2 = st := by
  unfold start at h ⊢
  cases hp : parseDebugOnlyOptions opts with
  | error e2 => rfl
  | ok dbg =>
      cases tokenRes with
      | error e2 => rfl
      | ok tok =>
          cases resp with
          | fail e2 => rfl
          | ok data =>
              rw [hp] at h
              by_cases hd : dbg.getD false = true
              · simp [hd]
              · by_cases hg : goodStartData data = true
                · simp [hd, hg] at h
                · simp [hd, hg]

/-- A non-debug `start` whose response lacks a truthy `server`, `task` or
`remaining_files` raises the invalid-response error and leaves the state
untouched. -/
theorem start_invalid_response (st : TaskIState) (opts : DebugOnlyOptions)
    (dbg : Option Bool) (tok : ModelToken) (data : Option StartRespData)
    (hp : parseDebugOnlyOptions opts = .ok dbg) (hd : dbg.getD false = false)
    (hg : goodStartData data = false) :
    (start st opts (.ok tok) (.ok data)).1
      = .error (.plain "Invalid response: missing required fields") ∧
    (start st opts (.ok tok) (.ok data)).2 = st := by
  unfold start
  rw [hp]
  simp [hd, hg, classifyError]

/-- Claim C7: a failed `start` — whether the failure is a validation
error, a token acquisition failure, a transport error, or the
invalid-response error raised when the response lacks a truthy `server`,
`task` or `remaining_files` — modifies none of the task-state fields;
and `addFile` and `process` never mutate the state at all (so in
particular never on error). -/
theorem claim_C7 (st : TaskIState) :
    (∀ opts tokenRes resp e, (start st opts tokenRes resp).1 = .error e →
        (start st opts tokenRes resp).2 = st) ∧
    (∀ opts dbg tok data, parseDebugOnlyOptions opts = .ok dbg →
        dbg.getD false = false → goodStartData data = false →
        (start st opts (.ok tok) (.ok data)).1
          = .error (.plain "Invalid response: missing required fields") ∧
        (start st opts (.ok tok) (.ok data)).2 = st) ∧
    (∀ o r, (addFile st o r).2 = st) ∧
    (∀ o t r, (process st o t r).2 = st) := by
  refine ⟨fun opts tokenRes resp e h =>
      start_error_state st opts tokenRes resp e h,
    fun opts dbg tok data hp hd hg =>
      start_invalid_response st opts dbg tok data hp hd hg,
    fun o r => addFile_state st o r,
    fun o t r => process_state st o t r⟩

/-- Claim C7 witness: a concrete start with a body missing every required
field raises the invalid-response error and leaves the fresh session
unchanged; a concrete `addFile` and `process` also leave it unchanged. -/
theorem claim_C7_witness :
    (start freshSession {} (.ok sampleToken) (.ok none)).1
      = .error (.plain "Invalid response: missing required fields") ∧
    (start freshSession {} (.ok sampleToken) (.ok none)).2 = freshSession ∧
    (addFile freshSession {} (.ok .vNull)).2 = freshSession ∧
    (process freshSession {} {} (.ok .vNull)).2 = freshSession := by
  have hc := claim_C7 freshSession
  have hinv := hc.2.1 {} none sampleToken none rfl rfl rfl
  exact ⟨hinv.1, hinv.2, hc.2.2.1 _ _, hc.2.2.2 _ _ _⟩

/-- `verifyToken` on a state whose cached token survives the applicable
check returns the decoded payload and leaves the state untouched. -/
theorem verifyToken_valid {st : AuthState} {t : ModelToken} {now : Int}
    (h : st.token = some t) (hv : cachedTokenValid st now = true) :
    Auth.verifyToken st now = (some t.payload, st) := by
  unfold cachedTokenValid at hv
  rw [h] at hv
  unfold Auth.verifyToken
  rw [h]
  by_cases hk : st.secretKey = ""
  · simp only [hk, ne_eq, not_true_eq_false, if_false] at hv ⊢
    simp only [decide_eq_true_eq] at hv
    rw [if_neg (by omega)]
  · simp only [ne_eq, hk, not_false_eq_true, if_true] at hv ⊢
    rw [if_pos hv]

/-- `verifyToken` on a state whose cache is absent or fails the
applicable check returns nothing and the cache ends up cleared. -/
theorem verifyToken_invalid {st : AuthState} {now : Int}
    (hv : cachedTokenValid st now = false) :
    Auth.verifyToken st now = (none, { st with token := none }) := by
  cases st with
  | mk token pk sk topts =>
      cases token with
      | none => rfl
      | some t =>
          unfold cachedTokenValid at hv
          unfold Auth.verifyToken
          simp only at hv ⊢
          by_cases hk : sk = ""
          · simp only [hk, ne_eq, not_true_eq_false, if_false] at hv ⊢
            simp only [decide_eq_false_iff_not, not_le] at hv
            rw [if_pos (by omega)]
          · simp only [ne_eq, hk, not_false_eq_true, if_true] at hv ⊢
            rw [if_neg (by simp [hv])]

/-- Claim C5: `verifyToken` establishes that afterwards the cache is
absent or valid.  With no cached token it returns nothing and changes
nothing; with a cached token failing the applicable check (expired `exp`
when the secret key is empty, or failed signature/expiry verification
when it is set) it clears the cache and returns nothing; with a valid
cached token it returns the decoded claims without mutating the cache. -/
theorem claim_C5 (st : AuthState) (now : Int) :
    (st.token = none → Auth.verifyToken st now = (none, st)) ∧
    (∀ t, st.token = some t → cachedTokenValid st now = false →
        Auth.verifyToken st now = (none, { st with token := none })) ∧
    (∀ t, st.token = some t → cachedTokenValid st now = true →
        Auth.verifyToken st now = (some t.payload, st)) ∧
    ((Auth.verifyToken st now).2.token = none ∨
        cachedTokenValid (Auth.verifyToken st now).2 now = true) := by
  refine ⟨?_, ?_, ?_, ?_⟩
  · intro h
    unfold Auth.verifyToken
    rw [h]
  · intro t h hv
    exact verifyToken_invalid hv
  · intro t h hv
    exact verifyToken_valid h hv
  · by_cases h : cachedTokenValid st now = true
    · cases ht : st.token with
      | none =>
          left
          unfold Auth.verifyToken
          rw [ht]
          exact ht
      | some t =>
          right
          rw [verifyToken_valid ht h]
          exact h
    · left
      rw [verifyToken_invalid (by simpa using h)]

/-- Claim C5 witness: the expired cached token is cleared at clock time
100, and the cleared cache reads as unset. -/
theorem claim_C5_witness :
    Auth.verifyToken expiredAuth 100 = (none, { expiredAuth with token := none }) ∧
    (Auth.verifyToken expiredAuth 100).2.token = none := by
  have hc := (claim_C5 expiredAuth 100).2.1 expiredToken rfl (by decide)
  exact ⟨hc, by rw [hc]⟩

/-- Claim C4: with a valid cached token, `getToken` is the observably
side-effect-free fast path, and two consecutive calls both return the
identical cached token while neither signs nor performs network work and
the state is unchanged. -/
theorem claim_C4 (st : AuthState) (now : Int)
    (r1 r2 : Except JsError (Option ModelToken)) (t : ModelToken)
    (h : st.token = some t) (hv : cachedTokenValid st now = true) :
    (Auth.getToken st now r1).result = .ok t ∧
    (Auth.getToken st now r1).state = st ∧
    (Auth.getToken st now r1).didSign = false ∧
    (Auth.getToken st now r1).didNetwork = false ∧
    (Auth.getToken (Auth.getToken st now r1).state now r2).result = .ok t ∧
    (Auth.getToken (Auth.getToken st now r1).state now r2).state = st ∧
    (Auth.getToken (Auth.getToken st now r1).state now r2).didSign = false ∧
    (Auth.getToken (Auth.getToken st now r1).state now r2).didNetwork = false := by
  have h1 : ∀ r, Auth.getToken st now r =
      { result := .ok t, state := st, didSign := false, didNetwork := false } := by
    intro r
    unfold Auth.getToken
    rw [verifyToken_valid h hv]
    simp [h]
  simp [h1]

/-- Claim C4 witness: two consecutive `getToken` calls on a concrete
valid cache both return the cached token with no signing or network
work. -/
theorem claim_C4_witness :
    (Auth.getToken cachedAuth 100 (.ok none)).result = .ok sampleToken ∧
    (Auth.getToken cachedAuth 100 (.ok none)).state = cachedAuth ∧
    (Auth.getToken cachedAuth 100 (.ok none)).didSign = false ∧
    (Auth.getToken cachedAuth 100 (.ok none)).didNetwork = false ∧
    (Auth.getToken (Auth.getToken cachedAuth 100 (.ok none)).state 100
        (.ok none)).result = .ok sampleToken ∧
    (Auth.getToken (Auth.getToken cachedAuth 100 (.ok none)).state 100
        (.ok none)).state = cachedAuth ∧
    (Auth.getToken (Auth.getToken cachedAuth 100 (.ok none)).state 100
        (.ok none)).didSign = false ∧
    (Auth.getToken (Auth.getToken cachedAuth 100 (.ok none)).state 100
        (.ok none)).didNetwork = false :=
  claim_C4 cachedAuth 100 (.ok none) (.ok none) sampleToken rfl (by decide)

/-- Claim C6: with a non-empty secret key and no valid cached token,
`getToken` locally computes a token whose claims are exactly the
configured issuer, `iat` and `nbf` thirty seconds before now, `exp` at
now plus the configured age, `jti` the public key and the configured
file encryption key when present, signs it with the secret key, caches
it, and performs no network call. -/
theorem claim_C6 (st : AuthState) (now : Int)
    (resp : Except JsError (Option ModelToken))
    (hsk : st.secretKey ≠ "") (hnv : cachedTokenValid st now = false) :
    (Auth.getToken st now resp).result = .ok
      { payload := { iss := st.tokenOptions.iss
                     iat := now - 30
                     nbf := now - 30
                     exp := now + st.tokenOptions.age
                     jti := st.publicKey
                     file_encryption_key := st.tokenOptions.file_encryption_key }
        signedWith := st.secretKey } ∧
    (Auth.getToken st now resp).state.token = some
      { payload := { iss := st.tokenOptions.iss
                     iat := now - 30
                     nbf := now - 30
                     exp := now + st.tokenOptions.age
                     jti := st.publicKey
                     file_encryption_key := st.tokenOptions.file_encryption_key }
        signedWith := st.secretKey } ∧
    (Auth.getToken st now resp).didSign = true ∧
    (Auth.getToken st now resp).didNetwork = false := by
  unfold Auth.getToken
  rw [verifyToken_invalid hnv]
  simp [Auth.getTokenLocally, Auth.TIME_DELAY, hsk]

/-- Claim C6 witness: the locally signed token computed at clock time
1000 on a concrete empty-cache state with a secret key. -/
theorem claim_C6_witness :
    (Auth.getToken noTokenAuth 1000 (.ok none)).result = .ok
      { payload := { iss := "api.ilovepdf.com"
                     iat := 970
                     nbf := 970
                     exp := 4600
                     jti := "project-public-key" }
        signedWith := "project-secret-key" } ∧
    (Auth.getToken noTokenAuth 1000 (.ok none)).didSign = true ∧
    (Auth.getToken noTokenAuth 1000 (.ok none)).didNetwork = false := by
  have hc := claim_C6 noTokenAuth 1000 (.ok none) (by decide) (by decide)
  exact ⟨hc.1, hc.2.2.1, hc.2.2.2⟩

/-- Claim C8: on an upscale-bound session whose task id, server and
non-empty files list are set, `process` with an empty toolOptions object
(no multiplier) raises a validation error, with multiplier 5 raises a
validation error, and with multiplier 4 the validation stage succeeds
and the process request is issued (the call resolves with the transport
outcome); moreover the dispatcher reads only the sub-object keyed by the
bound tool, so any two toolOptions objects agreeing on that key validate
identically, whatever sibling keys they carry.  Validation error details
are modelled by tags. -/
theorem claim_C8 (st : TaskIState) (htool : st.tool = "upscaleimage")
    (tid : String) (hid : st.task_id = some tid) (hne : tid ≠ "")
    (hsrv : st.server.isSome = true)
    (l : List UploadedFile) (hf : st.files = some l) (hl : l ≠ []) :
    (∀ r, (process st {} {} r).1 = .error (.zod "Required")) ∧
    (∀ r, (process st {}
        { upscaleimage := some { multiplier := some (.vNum 5) } } r).1
      = .error (.zod "multiplier: Invalid value")) ∧
    (∀ d, (process st {}
        { upscaleimage := some { multiplier := some (.vNum 4) } } (.ok d)).1
      = .ok d) ∧
    (∀ tool bag bag2,
      ToolOptionsBag.lookup bag tool = ToolOptionsBag.lookup bag2 tool →
      validateProcessToolOptions tool bag = validateProcessToolOptions tool bag2) := by
  have hns := taskNotStarted_false hid hne hsrv
  have hfr := filesNotReady_false hf hl
  refine ⟨?_, ?_, ?_, ?_⟩
  · intro r
    simp only [process, hns, hfr, htool, Bool.false_eq_true, if_false]
    rfl
  · intro r
    simp only [process, hns, hfr, htool, Bool.false_eq_true, if_false]
    rfl
  · intro d
    simp only [process, hns, hfr, htool, Bool.false_eq_true, if_false]
    rfl
  · intro tool bag bag2 hEq
    by_cases h1 : tool = "convertimage"
    · subst h1
      have hEq2 : bag.convertimage.map RawToolValue.convert
          = bag2.convertimage.map RawToolValue.convert := hEq
      have hb : bag.convertimage = bag2.convertimage := by
        cases hbx : bag.convertimage <;> cases hby : bag2.convertimage <;>
          rw [hbx, hby] at hEq2 <;> simp_all
      show (parseConvertImageOptions bag.convertimage).map ValidatedToolOptions.convert
          = (parseConvertImageOptions bag2.convertimage).map ValidatedToolOptions.convert
      rw [hb]
    · by_cases h2 : tool = "removebackgroundimage"
      · subst h2
        rfl
      · by_cases h3 : tool = "upscaleimage"
        · subst h3
          have hEq2 : bag.upscaleimage.map RawToolValue.upscale
              = bag2.upscaleimage.map RawToolValue.upscale := hEq
          have hb : bag.upscaleimage = bag2.upscaleimage := by
            cases hbx : bag.upscaleimage <;> cases hby : bag2.upscaleimage <;>
              rw [hbx, hby] at hEq2 <;> simp_all
          show (parseUpscaleImageOptions bag.upscaleimage).map ValidatedToolOptions.upscale
              = (parseUpscaleImageOptions bag2.upscaleimage).map ValidatedToolOptions.upscale
          rw [hb]
        · by_cases h4 : tool = "watermarkimage"
          · subst h4
            have hEq2 : bag.watermarkimage.map RawToolValue.watermark
                = bag2.watermarkimage.map RawToolValue.watermark := hEq
            have hb : bag.watermarkimage = bag2.watermarkimage := by
              cases hbx : bag.watermarkimage <;> cases hby : bag2.watermarkimage <;>
                rw [hbx, hby] at hEq2 <;> simp_all
            show (parseWatermarkImageOptions bag.watermarkimage).map
                  ValidatedToolOptions.watermark
                = (parseWatermarkImageOptions bag2.watermarkimage).map
                  ValidatedToolOptions.watermark
            rw [hb]
          · simp only [validateProcessToolOptions, if_neg h1, if_neg h2,
              if_neg h3, if_neg h4]

/-- Claim C8 witness: the three upscale `process` outcomes and a
dispatcher sibling-independence instance at concrete inputs. -/
theorem claim_C8_witness :
    (process sessionWithFile {} {} (.ok .vNull)).1
      = .error (.zod "Required") ∧
    (process sessionWithFile {}
        { upscaleimage := some { multiplier := some (.vNum 5) } }
        (.ok .vNull)).1 = .error (.zod "multiplier: Invalid value") ∧
    (process sessionWithFile {}
        { upscaleimage := some { multiplier := some (.vNum 4) } }
        (.ok (.vStr "done"))).1 = .ok (.vStr "done") ∧
    validateProcessToolOptions "upscaleimage"
        { upscaleimage := some { multiplier := some (.vNum 4) }
          convertimage := some {} }
      = validateProcessToolOptions "upscaleimage"
        { upscaleimage := some { multiplier := some (.vNum 4) } } := by
  have hc := claim_C8 sessionWithFile rfl "tid" rfl (by decide) rfl
    [{ server_filename := "srv-file.jpg", filename := "a.jpg" }] rfl (by decide)
  exact ⟨hc.1 _, hc.2.1 _, hc.2.2.1 _, hc.2.2.2 _ _ _ (by decide)⟩

/-- Claim C9 (amended): a missing, empty or non-string `taskId` or
`taskServer` fails the detached Task construction with exactly the
taskId/taskServer error; this check runs BEFORE the publicKey/secretKey
checks of the internal token manager, so when the id/server pair is
well-formed and `publicKey` is invalid the publicKey error is raised. -/
theorem claim_C9 (pk sk tid tsrv : JsVal) (params : RawTokenOptions) :
    (taskIdServerBad tid tsrv = true →
      taskNew pk sk tid tsrv params
        = .error (.plain "taskId and taskServer are required and should be string.")) ∧
    (taskIdServerBad tid tsrv = false → (pk.truthy && pk.isStr) = false →
      taskNew pk sk tid tsrv params
        = .error (.plain "publicKey is required and must be a string.")) := by
  constructor
  · intro h
    simp [taskNew, h]
  · intro h hpk
    have hcond : (!pk.truthy || !pk.isStr) = true := by
      cases h1 : pk.truthy <;> cases h2 : pk.isStr <;> simp_all
    simp [taskNew, h, authNew, hcond]

/-- Claim C9 counterexample: with an invalid (empty-string) `publicKey`
AND a missing `taskId`, the constructor raises the taskId/taskServer
error, not the publicKey error the claim asserts. -/
theorem claim_C9_counterexample :
    taskNew (.vStr "") (.vStr "secret") .vUndefined (.vStr "srv") {}
      = .error (.plain "taskId and taskServer are required and should be string.") ∧
    taskNew (.vStr "") (.vStr "secret") .vUndefined (.vStr "srv") {}
      ≠ .error (.plain "publicKey is required and must be a string.") := by
  constructor <;> decide

/-- Claim C9 witness: the two branches of the amended ordering at
concrete inputs. -/
theorem claim_C9_witness :
    taskNew (.vStr "pk") (.vStr "sk") .vUndefined (.vStr "srv") {}
      = .error (.plain "taskId and taskServer are required and should be string.") ∧
    taskNew .vUndefined (.vStr "sk") (.vStr "tid") (.vStr "srv") {}
      = .error (.plain "publicKey is required and must be a string.") :=
  ⟨(claim_C9 (.vStr "pk") (.vStr "sk") .vUndefined (.vStr "srv") {}).1 (by decide),
   (claim_C9 .vUndefined (.vStr "sk") (.vStr "tid") (.vStr "srv") {}).2
     (by decide) (by decide)⟩

/-- Claim C10: the five accessors are total (they are functions of the
state, so they never throw) and each reports `undefined` exactly when
the stored value is falsy: an unset or empty tool or task id, an unset
or zero remaining-files count; the uploaded-files and server accessors
return the stored value itself (arrays and client objects are always
truthy, so an empty list passes through). -/
theorem claim_C10 (st : TaskIState) :
    (getTool st = none ↔ st.tool = "") ∧
    (∀ v, getTool st = some v ↔ (st.tool = v ∧ v ≠ "")) ∧
    (getTaskId st = none ↔ (st.task_id = none ∨ st.task_id = some "")) ∧
    (∀ v, getTaskId st = some v ↔ (st.task_id = some v ∧ v ≠ "")) ∧
    (getRemainingFiles st = none ↔
      (st.remaining_files = none ∨ st.remaining_files = some 0)) ∧
    (∀ n, getRemainingFiles st = some n ↔
      (st.remaining_files = some n ∧ n ≠ 0)) ∧
    (getUploadedFiles st = st.files) ∧
    (getServer st = st.server) := by
  refine ⟨?_, ?_, ?_, ?_, ?_, ?_, rfl, rfl⟩
  · unfold getTool
    by_cases h : st.tool = "" <;> simp [h]
  · intro v
    unfold getTool
    by_cases h : st.tool = "" <;> simp [h] <;> aesop
  · unfold getTaskId
    cases h : st.task_id with
    | none => simp
    | some s => by_cases hs : s = "" <;> simp [hs]
  · intro v
    unfold getTaskId
    cases h : st.task_id with
    | none => simp
    | some s => by_cases hs : s = "" <;> simp [hs] <;> aesop
  · unfold getRemainingFiles
    cases h : st.remaining_files with
    | none => simp
    | some n => by_cases hn : n = 0 <;> simp [hn]
  · intro m
    unfold getRemainingFiles
    cases h : st.remaining_files with
    | none => simp
    | some n => by_cases hn : n = 0 <;> simp [hn] <;> aesop

/-- Claim C10 witness: on a session whose stored values are all falsy,
the accessors report `undefined` for tool, task id and remaining files,
while the empty uploaded-files list and the unset server pass through. -/
theorem claim_C10_witness :
    getTool falsySession = none ∧ getTaskId falsySession = none ∧
    getRemainingFiles falsySession = none ∧
    getUploadedFiles falsySession = some [] ∧ getServer falsySession = none := by
  have hc := claim_C10 falsySession
  exact ⟨hc.1.mpr rfl, hc.2.2.1.mpr (Or.inr rfl),
    hc.2.2.2.2.1.mpr (Or.inr rfl), hc.2.2.2.2.2.2.1.trans rfl,
    hc.2.2.2.2.2.2.2.trans rfl⟩

end ILoveIMG
